import Mathlib

/-!
Verification development for the meeting-transcription server.

This file gives a shallow embedding of the session store, audio-chunk
receiver, transcript assembler and SRT exporter of the repository
(src/audio/client_bridge.py, src/transcription/service.py, src/main.py),
and proves or refutes the specification claims about them.

Modelling conventions:
  * Python byte strings are lists of naturals; base64.b64decode is modelled
    by an executable decoder mirroring CPython binascii a2b_base64 in
    non-strict mode (non-alphabet characters discarded, padding rules as
    implemented there).
  * Python floats (timestamps, confidences, durations) are modelled as
    exact rationals.
  * Python dicts keyed by session id are association lists with unique keys;
    mget, mset, mdel model lookup, assignment and deletion.
  * A raising Python method is modelled as a function returning an
    Except value together with the post-state, since mutations performed
    before a raise persist (dicts are mutated in place).
  * ValueError, KeyError and ZeroDivisionError are the exception kinds
    the modelled code raises; they are carried as PyError.
-/

/-- Byte strings are lists of naturals below 256. -/
abbrev Bytes := List Nat

/-- Opaque chunk metadata dictionaries forwarded by clients. -/
abbrev Meta := List (String × String)

/-- Exception values raised by the modelled Python code. -/
inductive PyError where
  | valueError (msg : String)
  | keyError (key : String)
  | zeroDivisionError
deriving DecidableEq

/-- Dict lookup: first binding of the key, if any. -/
def mget {α : Type} (m : List (String × α)) (k : String) : Option α :=
  match m with
  | [] => none
  | (k', v) :: t => if k' = k then some v else mget t k

/-- Dict assignment: update the first binding of the key or append a new one. -/
def mset {α : Type} (m : List (String × α)) (k : String) (v : α) : List (String × α) :=
  match m with
  | [] => [(k, v)]
  | (k', v') :: t => if k' = k then (k, v) :: t else (k', v') :: mset t k v

/-- Dict deletion: remove every binding of the key (keys are unique in Python dicts). -/
def mdel {α : Type} (m : List (String × α)) (k : String) : List (String × α) :=
  match m with
  | [] => []
  | (k', v') :: t => if k' = k then mdel t k else (k', v') :: mdel t k

/-- Value of a standard base64 alphabet character, none for other characters. -/
def b64val (c : Char) : Option Nat :=
  if 'A' ≤ c ∧ c ≤ 'Z' then some (c.toNat - 65)
  else if 'a' ≤ c ∧ c ≤ 'z' then some (c.toNat - 97 + 26)
  else if '0' ≤ c ∧ c ≤ '9' then some (c.toNat - 48 + 52)
  else if c = '+' then some 62
  else if c = '/' then some 63
  else none

/-- Decode a complete group of four base64 values into three bytes. -/
def b64quad (a b c d : Nat) : List Nat :=
  [a * 4 + b / 16, b % 16 * 16 + c / 4, c % 4 * 64 + d]

/-- Decode a final partial group of two or three values followed by padding. -/
def b64leftover (quad : List Nat) : List Nat :=
  match quad with
  | [a, b] => [a * 4 + b / 16]
  | [a, b, c] => [a * 4 + b / 16, b % 16 * 16 + c / 4]
  | _ => []

/-- Core of CPython binascii a2b_base64 in non-strict mode: walk the
characters, discarding non-alphabet ones, accumulating a group of up to
four data values, a count of pending padding characters and the total
count of data characters consumed.  Padding closes the stream once the
group has at least two values and group plus padding reaches four; a
trailing group of one value raises the data-character-count error, one of
two or three values without enough padding raises Incorrect padding, both
with CPython's message text. -/
def b64decodeAux : List Char → List Nat → Nat → Nat → Except String (List Nat)
  | [], quad, _, count =>
    match quad with
    | [] => .ok []
    | [_] =>
      .error ("Invalid base64-encoded string: number of data characters (" ++
        toString count ++ ") cannot be 1 more than a multiple of 4")
    | _ => .error "Incorrect padding"
  | ch :: rest, quad, pads, count =>
    if ch = '=' then
      if 2 ≤ quad.length ∧ 4 ≤ quad.length + (pads + 1) then
        .ok (b64leftover quad)
      else
        b64decodeAux rest quad (pads + 1) count
    else
      match b64val ch with
      | none => b64decodeAux rest quad pads count
      | some v =>
        match quad ++ [v] with
        | [a, b, c, d] =>
          (b64decodeAux rest [] 0 (count + 1)).map (fun t => b64quad a b c d ++ t)
        | quad' => b64decodeAux rest quad' 0 (count + 1)

/-- Model of base64.b64decode as called by receive_audio_chunk: the bytes
on success, or the message of the binascii.Error it raises. -/
def b64decodeE (s : String) : Except String Bytes :=
  b64decodeAux s.data [] 0 0

/-- Per-session configuration dict passed to the client bridge; absent keys
are none and the code supplies defaults via dict get. -/
structure SessionConfig where
  sample_rate : Option Nat := none
  channels : Option Nat := none
  chunk_duration : Option Nat := none
deriving DecidableEq

/-- One entry of a session's audio buffer list (chunk_info in the source). -/
structure ChunkInfo where
  data : Bytes
  timestamp : ℚ
  metadata : Meta
  size : Nat
deriving DecidableEq

/-- One entry of ClientAudioBridge.active_sessions.  Keys the source adds
only later in the session's life are optional fields. -/
structure ClientSession where
  config : SessionConfig
  status : String
  start_time : ℚ
  chunk_count : Nat
  total_audio_duration : ℚ
  last_chunk_time : Option ℚ := none
  end_time : Option ℚ := none
  final_audio_size : Option Nat := none
deriving DecidableEq

/-- The two dictionaries owned by ClientAudioBridge. -/
structure Bridge where
  active_sessions : List (String × ClientSession)
  audio_buffers : List (String × List ChunkInfo)
deriving DecidableEq

/-- Instruction block returned by start_client_recording. -/
structure StartInstructions where
  audio_format : String
  encoding : String
  sample_rate : Nat
  channels : Nat
  chunk_size_ms : Nat
deriving DecidableEq

/-- Result dict of start_client_recording. -/
structure StartResult where
  session_id : String
  status : String
  message : String
  instructions : StartInstructions
deriving DecidableEq

/-- ClientAudioBridge.start_client_recording: fails when the id is already
present, otherwise installs a fresh session and an empty audio buffer. -/
def startClientRecording (now : ℚ) (session_id : String) (config : SessionConfig)
    (st : Bridge) : Except PyError StartResult × Bridge :=
  if (mget st.active_sessions session_id).isSome then
    (.error (.valueError ("Session " ++ session_id ++ " is already active")), st)
  else
    let session : ClientSession :=
      { config := config, status := "waiting_for_audio", start_time := now,
        chunk_count := 0, total_audio_duration := 0 }
    let st' : Bridge :=
      { active_sessions := mset st.active_sessions session_id session,
        audio_buffers := mset st.audio_buffers session_id [] }
    (.ok { session_id := session_id, status := "waiting_for_audio",
           message := "Session ready to receive audio from client",
           instructions :=
             { audio_format := "WAV or raw PCM", encoding := "base64",
               sample_rate := config.sample_rate.getD 16000,
               channels := config.channels.getD 1,
               chunk_size_ms := config.chunk_duration.getD 5 * 1000 } }, st')

/-- Result dict of receive_audio_chunk. -/
structure ChunkResult where
  session_id : String
  status : String
  chunk_number : Nat
  chunk_size_bytes : Nat
  total_chunks : Nat
  total_duration_seconds : ℚ
deriving DecidableEq

/-- ClientAudioBridge.receive_audio_chunk: unknown id raises ValueError;
a failed base64 decode raises ValueError carrying the binascii message;
a missing buffer entry raises KeyError at the list append.  Otherwise the
decoded bytes are appended to the buffer and the chunk count, status and
last-chunk time updated; only then is the duration estimate divided by
sample_rate times channels times bytes-per-sample, which raises
ZeroDivisionError when that product is zero - with the earlier mutations
already in place. -/
def receiveAudioChunk (now : ℚ) (session_id : String) (audio_data : String)
    (metadata : Option Meta) (st : Bridge) : Except PyError ChunkResult × Bridge :=
  match mget st.active_sessions session_id with
  | none => (.error (.valueError ("Session " ++ session_id ++ " not found")), st)
  | some session =>
    match b64decodeE audio_data with
    | .error e => (.error (.valueError ("Invalid base64 audio data: " ++ e)), st)
    | .ok audio_bytes =>
      match mget st.audio_buffers session_id with
      | none => (.error (.keyError session_id), st)
      | some buf =>
        let chunk_info : ChunkInfo :=
          { data := audio_bytes, timestamp := now, metadata := metadata.getD [],
            size := audio_bytes.length }
        let buffers' := mset st.audio_buffers session_id (buf ++ [chunk_info])
        let session_mid : ClientSession :=
          { session with
              chunk_count := session.chunk_count + 1,
              status := "receiving_audio",
              last_chunk_time := some now }
        let sample_rate := session.config.sample_rate.getD 16000
        let channels := session.config.channels.getD 1
        let bytes_per_sample := 2
        if sample_rate * channels * bytes_per_sample = 0 then
          (.error .zeroDivisionError,
           { active_sessions := mset st.active_sessions session_id session_mid,
             audio_buffers := buffers' })
        else
          let duration_seconds : ℚ :=
            (audio_bytes.length : ℚ) /
              ((sample_rate : ℚ) * (channels : ℚ) * (bytes_per_sample : ℚ))
          let session' : ClientSession :=
            { session_mid with
                total_audio_duration := session.total_audio_duration + duration_seconds }
          (.ok { session_id := session_id, status := "chunk_received",
                 chunk_number := session'.chunk_count,
                 chunk_size_bytes := audio_bytes.length,
                 total_chunks := session'.chunk_count,
                 total_duration_seconds := session'.total_audio_duration },
           { active_sessions := mset st.active_sessions session_id session',
             audio_buffers := buffers' })

/-- Result dict of stop_client_recording. -/
structure StopResult where
  session_id : String
  status : String
  total_chunks : Nat
  total_duration_seconds : ℚ
  total_audio_bytes : Nat
  audio_data : Bytes
  session_duration : ℚ
deriving DecidableEq

/-- ClientAudioBridge.stop_client_recording: unknown id raises ValueError;
otherwise the buffered chunks are concatenated, the session is marked
completed in place, and the buffer entry is deleted - a deletion that
raises KeyError when the buffer entry is already gone, after the session
mutations have landed. -/
def stopClientRecording (now : ℚ) (session_id : String) (st : Bridge) :
    Except PyError StopResult × Bridge :=
  match mget st.active_sessions session_id with
  | none => (.error (.valueError ("Session " ++ session_id ++ " not found")), st)
  | some session =>
    let audio_chunks := (mget st.audio_buffers session_id).getD []
    let combined_audio := (audio_chunks.map (fun c => c.data)).flatten
    let session' : ClientSession :=
      { session with
          status := "completed"
          end_time := some now
          final_audio_size := some combined_audio.length }
    let sessions' := mset st.active_sessions session_id session'
    match mget st.audio_buffers session_id with
    | none => (.error (.keyError session_id), { st with active_sessions := sessions' })
    | some _ =>
      (.ok { session_id := session_id, status := "completed",
             total_chunks := session.chunk_count,
             total_duration_seconds := session.total_audio_duration,
             total_audio_bytes := combined_audio.length,
             audio_data := combined_audio,
             session_duration := now - session.start_time },
       { active_sessions := sessions', audio_buffers := mdel st.audio_buffers session_id })

/-- Result dict of get_client_session_status. -/
structure StatusResult where
  session_id : String
  status : String
  duration_seconds : ℚ
  chunks_received : Nat
  total_audio_duration : ℚ
  config : SessionConfig
  last_activity : ℚ
deriving DecidableEq

/-- ClientAudioBridge.get_client_session_status: read-only snapshot, raises
ValueError for an unknown id. -/
def getClientSessionStatus (now : ℚ) (session_id : String) (st : Bridge) :
    Except PyError StatusResult :=
  match mget st.active_sessions session_id with
  | none => .error (.valueError ("Session " ++ session_id ++ " not found"))
  | some session =>
    .ok { session_id := session_id, status := session.status,
          duration_seconds := now - session.start_time,
          chunks_received := session.chunk_count,
          total_audio_duration := session.total_audio_duration,
          config := session.config,
          last_activity := session.last_chunk_time.getD session.start_time }

/-- ClientAudioBridge.cleanup_session: delete both entries when present. -/
def cleanupSession (session_id : String) (st : Bridge) : Bridge :=
  { active_sessions := mdel st.active_sessions session_id,
    audio_buffers := mdel st.audio_buffers session_id }

/-- Python str.strip on a character list: whitespace removed from both ends. -/
def stripChars (l : List Char) : List Char :=
  ((l.dropWhile Char.isWhitespace).reverse.dropWhile Char.isWhitespace).reverse

/-- Python str.strip. -/
def pyStrip (s : String) : String :=
  String.mk (stripChars s.data)

/-- Segments of a character list delimited by single whitespace characters;
consecutive delimiters yield empty segments. -/
def splitOnWs : List Char → List (List Char)
  | [] => [[]]
  | c :: rest =>
    if c.isWhitespace then [] :: splitOnWs rest
    else
      match splitOnWs rest with
      | s :: ss => (c :: s) :: ss
      | [] => [[c]]

/-- Python str.split with no separator: whitespace runs split, empties dropped. -/
def pyWords (s : String) : List String :=
  ((splitOnWs s.data).map String.mk).filter (fun w => w != "")

/-- TranscriptionResult of the transcription service: one timed text
segment with a confidence and an optional speaker id. -/
structure TranscriptionResult where
  text : String
  confidence : ℚ
  timestamp : ℚ
  speaker_id : Option String := none
deriving DecidableEq

/-- Dict returned by the Whisper model invocation; the text key may be
absent, the source reads it with a get defaulting to the empty string. -/
structure WhisperOut where
  text : Option String
deriving DecidableEq

/-- LocalWhisperProvider.transcribe_audio.  The external model call is
abstracted by the asr argument giving this invocation's outcome: ok with
the result dict, or error with the message of the raised exception.  The
function returns the produced TranscriptionResult together with the
number of model invocations performed; the try/except in the source turns
every failure into an ordinary result whose text embeds the error
message, so the Except layer is always ok. -/
def transcribeAudio (model_loaded : Bool) (audio_data : Bytes)
    (session_config : SessionConfig) (now : ℚ) (asr : Except String WhisperOut) :
    (Except PyError TranscriptionResult) × Nat :=
  if model_loaded then
    if audio_data = [] then
      (.ok { text := "", confidence := 0, timestamp := now }, 0)
    else
      let sample_rate := session_config.sample_rate.getD 16000
      let _ := sample_rate
      match asr with
      | .ok result =>
        (.ok { text := pyStrip (result.text.getD ""), confidence := 9 / 10,
               timestamp := now }, 1)
      | .error msg =>
        (.ok { text := "[Local Whisper Error: " ++ msg ++ "]", confidence := 0,
               timestamp := now }, 1)
  else
    (.ok { text := "[Local Whisper Error: Whisper model not loaded]",
           confidence := 0, timestamp := now }, 0)

/-- Outcome of one Ollama post-processing HTTP call: a 200 response whose
JSON body may or may not carry a response field, a non-200 status, or a
raised exception (timeout included). -/
inductive PostOutcome where
  | ok200 (response : Option String)
  | httpError (status : Nat)
  | exc (msg : String)
deriving DecidableEq

/-- OllamaPostProcessor.post_process_transcript: on a 200 response return
the response field stripped, defaulting to the input; on any other status
or on an exception return the raw transcript unchanged.  Total - every
failure is caught inside. -/
def postProcessTranscript (raw_transcript : String) (outcome : PostOutcome) : String :=
  match outcome with
  | .ok200 response => pyStrip (response.getD raw_transcript)
  | .httpError _ => raw_transcript
  | .exc _ => raw_transcript

/-- A cleanup-call outcome that is a failure in the sense of the spec:
timeout or other exception, or a non-200 status. -/
def isPostFailure : PostOutcome → Bool
  | .ok200 _ => false
  | .httpError _ => true
  | .exc _ => true

/-- Python str.join: concatenation with a separator between elements. -/
def pyJoin (sep : String) : List String → String
  | [] => ""
  | [x] => x
  | x :: xs => x ++ sep ++ pyJoin sep xs

/-- The joined full text of get_final_transcript: texts of the results
whose stripped text is non-empty, joined with single spaces. -/
def joinedText (transcript_results : List TranscriptionResult) : String :=
  pyJoin " " ((transcript_results.filter (fun r => pyStrip r.text != "")).map (fun r => r.text))

/-- Python min over the timestamps of a non-empty result list (0 for []). -/
def minTimestamp : List TranscriptionResult → ℚ
  | [] => 0
  | r :: rest => rest.foldl (fun acc x => min acc x.timestamp) r.timestamp

/-- Python max over the timestamps of a non-empty result list (0 for []). -/
def maxTimestamp : List TranscriptionResult → ℚ
  | [] => 0
  | r :: rest => rest.foldl (fun acc x => max acc x.timestamp) r.timestamp

/-- The optional Ollama pass of get_final_transcript: when a post-processor
is configured and the text non-empty, run it; replace the text and set the
post_processed flag only when the cleaned text differs. -/
def ollamaPostStep (ollama : Option (String → PostOutcome)) (full_text : String) :
    String × Bool :=
  match ollama with
  | none => (full_text, false)
  | some post =>
    if full_text = "" then (full_text, false)
    else
      let processed_text := postProcessTranscript full_text (post full_text)
      if processed_text ≠ full_text then (processed_text, true) else (full_text, false)

/-- Final transcript dict; provider is none in the empty-session branch,
which does not emit the key. -/
structure FinalTranscript where
  full_text : String
  segments : List TranscriptionResult
  word_count : Nat
  duration : ℚ
  confidence_average : ℚ
  post_processed : Bool
  provider : Option String := none
deriving DecidableEq

/-- TranscriptionService.get_final_transcript on the stored results of a
session.  The Ollama post-processor, when configured, is abstracted by a
function from the prompt text to the call outcome. -/
def getFinalTranscript (transcript_results : List TranscriptionResult)
    (ollama : Option (String → PostOutcome)) : FinalTranscript :=
  if transcript_results = [] then
    { full_text := "", segments := [], word_count := 0, duration := 0,
      confidence_average := 0, post_processed := false, provider := none }
  else
    let full_text := joinedText transcript_results
    let processed := ollamaPostStep ollama full_text
    let word_count := if processed.1 = "" then 0 else (pyWords processed.1).length
    let start_time := minTimestamp transcript_results
    let end_time := maxTimestamp transcript_results
    let duration := end_time - start_time
    let valid_confidences :=
      (transcript_results.filter (fun r => decide (0 < r.confidence))).map
        (fun r => r.confidence)
    let confidence_average :=
      if valid_confidences = [] then 0
      else valid_confidences.sum / (valid_confidences.length : ℚ)
    { full_text := processed.1, segments := transcript_results,
      word_count := word_count, duration := duration,
      confidence_average := confidence_average, post_processed := processed.2,
      provider := some "unknown" }

/-- Zero-padded two-digit rendering of a non-negative number. -/
def pad2 (n : Nat) : String :=
  if n < 10 then "0" ++ toString n else toString n

/-- Zero-padded three-digit rendering of a non-negative number. -/
def pad3 (n : Nat) : String :=
  if n < 10 then "00" ++ toString n
  else if n < 100 then "0" ++ toString n
  else toString n

/-- Python percent-02d formatting of a possibly negative integer. -/
def zpad2 (i : Int) : String :=
  if 0 ≤ i then pad2 i.toNat else "-" ++ toString (-i).toNat

/-- Python percent-03d formatting of a possibly negative integer. -/
def zpad3 (i : Int) : String :=
  if 0 ≤ i then pad3 i.toNat else "-" ++ toString (-i).toNat

/-- Mathematical floor of a rational, computed by floor division of the
numerator by the denominator; this is Python floor division by 1. -/
def ratFloor (q : ℚ) : Int :=
  Int.fdiv q.num q.den

/-- TranscriptionService._format_srt_timestamp, with Python floor division
and floor modulo made explicit over exact rationals.  Python int()
truncation coincides with the floor on the non-negative remainders. -/
def formatSrtTimestamp (timestamp : ℚ) : String :=
  let hours : Int := ratFloor (timestamp / 3600)
  let minutes : Int := ratFloor ((timestamp - 3600 * ((ratFloor (timestamp / 3600) : Int) : ℚ)) / 60)
  let seconds : Int := ratFloor (timestamp - 60 * ((ratFloor (timestamp / 60) : Int) : ℚ))
  let milliseconds : Int := ratFloor ((timestamp - ((ratFloor timestamp : Int) : ℚ)) * 1000)
  zpad2 hours ++ ":" ++ zpad2 minutes ++ ":" ++ zpad2 seconds ++ "," ++ zpad3 milliseconds

/-- A segment dict as consumed by the SRT branch of export_transcript:
a timestamp, an optional end_timestamp read with a get defaulting to
start plus three seconds, and a text. -/
structure SrtSegment where
  timestamp : ℚ
  end_timestamp : Option ℚ := none
  text : String
deriving DecidableEq

/-- The srt_content list built by the loop of export_transcript, starting
from the given 1-based index: for each segment the index line, the
timestamp line, the text line and an empty line. -/
def srtLines : Nat → List SrtSegment → List String
  | _, [] => []
  | i, segment :: rest =>
    let start_time := segment.timestamp
    let end_time := segment.end_timestamp.getD (start_time + 3)
    toString i ::
      (formatSrtTimestamp start_time ++ " --> " ++ formatSrtTimestamp end_time) ::
      segment.text :: "" :: srtLines (i + 1) rest

/-- The SRT branch of TranscriptionService.export_transcript: the joined
srt_content lines. -/
def exportTranscriptSrt (segments : List SrtSegment) : String :=
  pyJoin "\n" (srtLines 1 segments)

/-- One numbered SRT block as the spec words it: index, timestamp line,
text, each line newline-terminated (the trailing newline doubles as the
blank separator line when blocks are joined). -/
def srtBlock (i : Nat) (segment : SrtSegment) : String :=
  toString i ++ "\n" ++
    formatSrtTimestamp segment.timestamp ++ " --> " ++
    formatSrtTimestamp (segment.end_timestamp.getD (segment.timestamp + 3)) ++ "\n" ++
    segment.text ++ "\n"

/-- The blocks of all segments in order, indices counting up from i. -/
def srtBlocksFrom : Nat → List SrtSegment → List String
  | _, [] => []
  | i, segment :: rest => srtBlock i segment :: srtBlocksFrom (i + 1) rest

/-- Modelled from the spec wording of the srt format: one numbered block
per segment, blocks separated by newlines. -/
def srtSpec (segments : List SrtSegment) : String :=
  pyJoin "\n" (srtBlocksFrom 1 segments)

/-- TranscriptionService.session_transcripts: per-session stored results. -/
abbrev ServiceState := List (String × List TranscriptionResult)

/-- TranscriptionService.transcribe_audio_chunk: empty audio short-circuits
without storing; otherwise the whisper_local provider is invoked and the
result appended to the session's stored transcripts.  A provider exception
would propagate, hence the Except layer. -/
def transcribeAudioChunk (session_id : String) (audio_data : Bytes)
    (session_config : SessionConfig) (now : ℚ) (asr : Except String WhisperOut)
    (svc : ServiceState) : Except PyError TranscriptionResult × ServiceState :=
  if audio_data = [] then
    (.ok { text := "", confidence := 0, timestamp := now }, svc)
  else
    match (transcribeAudio true audio_data session_config now asr).1 with
    | .error e => (.error e, svc)
    | .ok r => (.ok r, mset svc session_id ((mget svc session_id).getD [] ++ [r]))

/-- The transcript field the server-level stop attaches to its result:
either the full final transcript, or the three-key stub dict used when no
audio was received. -/
inductive TranscriptValue where
  | full (t : FinalTranscript)
  | emptyStub
deriving DecidableEq

/-- Result of MeetingTranscriptionServer.stop_client_recording: the bridge
stop result with the transcript entry added. -/
structure ServerStopResult where
  result : StopResult
  transcript : TranscriptValue
deriving DecidableEq

/-- MeetingTranscriptionServer.stop_client_recording: stop the bridge
session; when audio was collected, transcribe it and attach the final
transcript, otherwise attach the stub; bridge errors propagate. -/
def serverStopClientRecording (now : ℚ) (session_id : String)
    (asr : Except String WhisperOut) (ollama : Option (String → PostOutcome))
    (br : Bridge) (svc : ServiceState) :
    Except PyError ServerStopResult × Bridge × ServiceState :=
  match stopClientRecording now session_id br with
  | (.error e, br') => (.error e, br', svc)
  | (.ok r, br') =>
    if r.audio_data = [] then
      (.ok { result := r, transcript := .emptyStub }, br', svc)
    else
      match transcribeAudioChunk session_id r.audio_data
          { sample_rate := some 16000, channels := some 1 } now asr svc with
      | (.error e, svc') => (.error e, br', svc')
      | (.ok _, svc') =>
        let final := getFinalTranscript ((mget svc' session_id).getD []) ollama
        (.ok { result := r, transcript := .full final }, br', svc')

/-- The three session-referencing tool calls of the claims. -/
inductive ToolCall where
  | sendAudioChunk (session_id : String) (audio_data : String) (metadata : Option Meta)
  | stopClientRec (session_id : String)
  | getClientStatus (session_id : String)

/-- What the tool-call boundary hands back: a serialized result payload,
or the error text produced by the catch-all handler. -/
inductive ToolReply where
  | chunkReply (r : ChunkResult)
  | stopReply (r : ServerStopResult)
  | statusReply (r : StatusResult)
  | errorText (msg : String)
deriving DecidableEq

/-- Python str(e) for the modelled exception kinds: ValueError prints its
message, KeyError prints the quoted key, ZeroDivisionError its fixed
message. -/
def pyErrorMessage : PyError → String
  | .valueError msg => msg
  | .keyError key => "'" ++ key ++ "'"
  | .zeroDivisionError => "division by zero"

/-- The call_tool handler of main.py restricted to the three
session-referencing tools: dispatch to the server method and, per the
catch-all except branch, turn any raised exception into an error-text
response.  The function is total: no exception escapes the boundary. -/
def callTool (now : ℚ) (asr : Except String WhisperOut)
    (ollama : Option (String → PostOutcome)) (call : ToolCall)
    (br : Bridge) (svc : ServiceState) : ToolReply × Bridge × ServiceState :=
  match call with
  | .sendAudioChunk session_id audio_data metadata =>
    match receiveAudioChunk now session_id audio_data metadata br with
    | (.ok r, br') => (.chunkReply r, br', svc)
    | (.error e, br') => (.errorText ("Error: " ++ pyErrorMessage e), br', svc)
  | .stopClientRec session_id =>
    match serverStopClientRecording now session_id asr ollama br svc with
    | (.ok r, br', svc') => (.stopReply r, br', svc')
    | (.error e, br', svc') => (.errorText ("Error: " ++ pyErrorMessage e), br', svc')
  | .getClientStatus session_id =>
    match getClientSessionStatus now session_id br with
    | .ok r => (.statusReply r, br, svc)
    | .error e => (.errorText ("Error: " ++ pyErrorMessage e), br, svc)

/-- Session config dict of the host recording path (main.py), built from
the validated devices and the settings defaults. -/
structure HostConfig where
  session_id : String
  microphone_device : String
  speaker_device : String
  sample_rate : Nat
  channels : Nat
  chunk_duration : Nat
deriving DecidableEq

/-- One entry of MeetingTranscriptionServer.active_sessions. -/
structure HostSession where
  config : HostConfig
  status : String
  start_time : ℚ
  end_time : Option ℚ := none
  final_transcript : Option FinalTranscript := none
deriving DecidableEq

/-- The host-path server state: the session dict of
MeetingTranscriptionServer plus the keys of AudioCapture.active_streams
(the stream objects themselves carry no state the claims need). -/
structure HostState where
  active_sessions : List (String × HostSession)
  active_streams : List String
deriving DecidableEq

/-- The environment-sourced defaults read by start_recording_session. -/
structure HostSettings where
  sample_rate : Nat := 16000
  channels : Nat := 1
  chunk_duration : Nat := 30
deriving DecidableEq

/-- Result dict of start_recording_session. -/
structure StartSessionResult where
  session_id : String
  status : String
  message : String
deriving DecidableEq

/-- MeetingTranscriptionServer.start_recording_session: missing or empty
devices raise ValueError; AudioCapture.start_capture raises ValueError when
a stream for the id is already live, before any session entry is written;
otherwise the stream is registered and the session entry stored with
status recording. -/
def startRecordingSession (now : ℚ) (session_id : String)
    (microphone_device speaker_device : Option String) (settings : HostSettings)
    (st : HostState) : Except PyError StartSessionResult × HostState :=
  match microphone_device with
  | none => (.error (.valueError "Microphone device must be specified"), st)
  | some mic =>
    if mic = "" then (.error (.valueError "Microphone device must be specified"), st)
    else
      match speaker_device with
      | none => (.error (.valueError "Speaker device must be specified"), st)
      | some spk =>
        if spk = "" then (.error (.valueError "Speaker device must be specified"), st)
        else if session_id ∈ st.active_streams then
          (.error (.valueError ("Session " ++ session_id ++ " is already active")), st)
        else
          let session_config : HostConfig :=
            { session_id := session_id, microphone_device := mic,
              speaker_device := spk, sample_rate := settings.sample_rate,
              channels := settings.channels,
              chunk_duration := settings.chunk_duration }
          let st' : HostState :=
            { active_sessions :=
                mset st.active_sessions session_id
                  { config := session_config, status := "recording", start_time := now },
              active_streams := session_id :: st.active_streams }
          (.ok { session_id := session_id, status := "recording",
                 message := "Recording session started successfully" }, st')

/-- Result dict of stop_recording_session. -/
structure StopSessionResult where
  session_id : String
  status : String
  transcript : FinalTranscript
  duration : ℚ
deriving DecidableEq

/-- MeetingTranscriptionServer.stop_recording_session: unknown id raises
ValueError; otherwise the capture stream is stopped and dropped, the final
transcript assembled from the service's stored results (passed in here),
and the session marked completed. -/
def stopRecordingSession (now : ℚ) (session_id : String)
    (transcripts : List TranscriptionResult)
    (ollama : Option (String → PostOutcome)) (st : HostState) :
    Except PyError StopSessionResult × HostState :=
  match mget st.active_sessions session_id with
  | none => (.error (.valueError ("Session " ++ session_id ++ " not found")), st)
  | some session =>
    let streams' := st.active_streams.filter (fun s => s != session_id)
    let final_transcript := getFinalTranscript transcripts ollama
    let session' : HostSession :=
      { session with
          status := "completed"
          final_transcript := some final_transcript
          end_time := some now }
    (.ok { session_id := session_id, status := "completed",
           transcript := final_transcript,
           duration := now - session.start_time },
     { active_sessions := mset st.active_sessions session_id session',
       active_streams := streams' })

/-- One operation of the host recording path. -/
inductive HostOp where
  | start (now : ℚ) (session_id : String)
      (microphone_device speaker_device : Option String) (settings : HostSettings)
  | stop (now : ℚ) (session_id : String)
      (transcripts : List TranscriptionResult)
      (ollama : Option (String → PostOutcome))

/-- State transition of one host operation. -/
def hostStep (st : HostState) : HostOp → HostState
  | .start now id mic spk settings => (startRecordingSession now id mic spk settings st).2
  | .stop now id transcripts ollama => (stopRecordingSession now id transcripts ollama st).2

/-- Host states reachable from the empty server state. -/
inductive HostReachable : HostState → Prop where
  | init : HostReachable { active_sessions := [], active_streams := [] }
  | step (op : HostOp) {st : HostState} :
      HostReachable st → HostReachable (hostStep st op)

/-- Every session whose status is recording has a live capture stream. -/
def hostInvariant (st : HostState) : Prop :=
  ∀ id s, mget st.active_sessions id = some s → s.status = "recording" →
    id ∈ st.active_streams

theorem mget_mset_self {α : Type} (m : List (String × α)) (k : String) (v : α) :
    mget (mset m k v) k = some v := by
  induction m with
  | nil => simp [mget, mset]
  | cons p t ih =>
    by_cases h : p.1 = k
    · simp [mget, mset, h]
    · simp [mget, mset, h, ih]

theorem mget_mset_ne {α : Type} (m : List (String × α)) (k k' : String) (v : α)
    (h : k' ≠ k) : mget (mset m k v) k' = mget m k' := by
  have hkk : ¬ k = k' := fun hh => h hh.symm
  induction m with
  | nil => simp [mget, mset, hkk]
  | cons p t ih =>
    by_cases hp : p.1 = k
    · have hp' : ¬ p.1 = k' := by
        rw [hp]
        exact hkk
      simp [mget, mset, hp, hkk, hp']
    · by_cases hp' : p.1 = k'
      · simp [mget, mset, hp, hp', h]
      · simp [mget, mset, hp, hp', ih]

theorem mget_mdel_self {α : Type} (m : List (String × α)) (k : String) :
    mget (mdel m k) k = none := by
  induction m with
  | nil => simp [mget, mdel]
  | cons p t ih =>
    by_cases h : p.1 = k
    · simpa [mdel, h] using ih
    · simpa [mdel, mget, h] using ih

theorem mget_mdel_ne {α : Type} (m : List (String × α)) (k k' : String)
    (h : k' ≠ k) : mget (mdel m k') k = mget m k := by
  induction m with
  | nil => simp [mget, mdel]
  | cons p t ih =>
    have hkk : ¬ k = k' := fun hh => h hh.symm
    by_cases hp : p.1 = k'
    · simpa [mdel, mget, hp, h] using ih
    · by_cases hk : p.1 = k
      · simp [mdel, mget, hp, hk, hkk]
      · simpa [mdel, mget, hp, hk] using ih

/-- ratFloor agrees with the mathematical floor. -/
theorem ratFloor_eq_floor (q : ℚ) : ratFloor q = ⌊q⌋ := by
  rw [ratFloor, Int.fdiv_eq_ediv _ (Int.ofNat_nonneg q.den), Rat.floor_def]

theorem getFinalTranscript_full_text (rs : List TranscriptionResult)
    (ollama : Option (String → PostOutcome)) (h : rs ≠ []) :
    (getFinalTranscript rs ollama).full_text =
      (ollamaPostStep ollama (joinedText rs)).1 := by
  rw [getFinalTranscript, if_neg h]

theorem getFinalTranscript_post_processed (rs : List TranscriptionResult)
    (ollama : Option (String → PostOutcome)) (h : rs ≠ []) :
    (getFinalTranscript rs ollama).post_processed =
      (ollamaPostStep ollama (joinedText rs)).2 := by
  rw [getFinalTranscript, if_neg h]

theorem getFinalTranscript_duration (rs : List TranscriptionResult)
    (ollama : Option (String → PostOutcome)) (h : rs ≠ []) :
    (getFinalTranscript rs ollama).duration = maxTimestamp rs - minTimestamp rs := by
  rw [getFinalTranscript, if_neg h]

theorem ollamaPostStep_failure (f : String → PostOutcome) (t : String)
    (h : isPostFailure (f t) = true) : ollamaPostStep (some f) t = (t, false) := by
  unfold ollamaPostStep
  by_cases ht : t = ""
  · simp [ht]
  · have hpp : postProcessTranscript t (f t) = t := by
      cases hft : f t with
      | ok200 r => rw [hft] at h; simp [isPostFailure] at h
      | httpError s => simp [postProcessTranscript]
      | exc m => simp [postProcessTranscript]
    simp [ht, hpp]

theorem ollamaPostStep_ok200 (f : String → PostOutcome) (t : String)
    (response : Option String) (hf : f t = .ok200 response) (ht : t ≠ "")
    (hne : postProcessTranscript t (.ok200 response) ≠ t) :
    ollamaPostStep (some f) t = (postProcessTranscript t (.ok200 response), true) := by
  unfold ollamaPostStep
  simp [ht, hf, hne]

theorem formatSrtTimestamp_zero : formatSrtTimestamp 0 = "00:00:00,000" := by
  simp only [formatSrtTimestamp, ratFloor_eq_floor]
  norm_num
  decide

theorem formatSrtTimestamp_three : formatSrtTimestamp 3 = "00:00:03,000" := by
  simp only [formatSrtTimestamp, ratFloor_eq_floor]
  norm_num
  decide

theorem srtLines_join (segs : List SrtSegment) : ∀ i : Nat,
    pyJoin "\n" (srtLines i segs) = pyJoin "\n" (srtBlocksFrom i segs) := by
  induction segs with
  | nil => intro i; rfl
  | cons s rest ih =>
    intro i
    cases rest with
    | nil =>
      simp only [srtLines, srtBlocksFrom, srtBlock, pyJoin, String.append_assoc,
        String.append_empty]
    | cons s2 rest2 =>
      have hih := ih (i + 1)
      simp only [srtLines] at hih ⊢
      simp only [srtBlocksFrom] at hih ⊢
      simp only [pyJoin, srtBlock, String.append_assoc, String.empty_append] at hih ⊢
      rw [hih]

/-- C6: assembling an empty result list yields the empty transcript with
zero word count, zero duration, zero average confidence, empty segments
and post_processed false (and no provider key). -/
theorem assemble_empty_yields_zero : ∀ ollama : Option (String → PostOutcome),
    getFinalTranscript [] ollama =
      { full_text := "", segments := [], word_count := 0, duration := 0,
        confidence_average := 0, post_processed := false, provider := none } :=
  fun _ => rfl

/-- C7: SRT export renders one numbered block per segment in order (index,
zero-padded millisecond timestamps, text, blank separator), the end time
defaulting to start plus three seconds when absent; the single segment at
timestamp 0 with text hi yields exactly the claimed string. -/
theorem srt_export_numbered_blocks :
    (∀ segments : List SrtSegment, exportTranscriptSrt segments = srtSpec segments) ∧
    exportTranscriptSrt [{ timestamp := 0, end_timestamp := none, text := "hi" }] =
      "1\n00:00:00,000 --> 00:00:03,000\nhi\n" := by
  constructor
  · intro segments
    exact srtLines_join segments 1
  · have h3 : ((0:ℚ) + 3) = 3 := by norm_num
    simp only [exportTranscriptSrt, srtLines, Option.getD, h3,
      formatSrtTimestamp_zero, formatSrtTimestamp_three, pyJoin]
    decide

/-- C3 counterexample: on the claimed two-segment input (segments carry a
single timestamp, the start; the code stores no end time) the assembler
returns duration 2, the spread of the timestamps, not the claimed 4. -/
theorem assembler_duration_counterexample :
    (getFinalTranscript [{ text := "hello", confidence := 8/10, timestamp := 0 },
        { text := "world", confidence := 6/10, timestamp := 2 }] none).full_text
        = "hello world" ∧
    (getFinalTranscript [{ text := "hello", confidence := 8/10, timestamp := 0 },
        { text := "world", confidence := 6/10, timestamp := 2 }] none).word_count = 2 ∧
    (getFinalTranscript [{ text := "hello", confidence := 8/10, timestamp := 0 },
        { text := "world", confidence := 6/10, timestamp := 2 }] none).confidence_average
        = 7/10 ∧
    (getFinalTranscript [{ text := "hello", confidence := 8/10, timestamp := 0 },
        { text := "world", confidence := 6/10, timestamp := 2 }] none).duration = 2 ∧
    (getFinalTranscript [{ text := "hello", confidence := 8/10, timestamp := 0 },
        { text := "world", confidence := 6/10, timestamp := 2 }] none).duration ≠ 4 := by
  have h : ([{ text := "hello", confidence := 8/10, timestamp := 0 },
      { text := "world", confidence := 6/10, timestamp := 2 }] :
      List TranscriptionResult) ≠ [] := List.cons_ne_nil _ _
  have hdur : (getFinalTranscript [{ text := "hello", confidence := 8/10, timestamp := 0 },
      { text := "world", confidence := 6/10, timestamp := 2 }] none).duration = 2 := by
    rw [getFinalTranscript, if_neg h]
    norm_num [minTimestamp, maxTimestamp]
  refine ⟨?_, ?_, ?_, hdur, ?_⟩
  · rw [getFinalTranscript, if_neg h]
    norm_num [joinedText, pyJoin, pyStrip, stripChars, ollamaPostStep, List.filter]
    decide
  · rw [getFinalTranscript, if_neg h]
    norm_num [joinedText, pyJoin, pyStrip, stripChars, ollamaPostStep, pyWords,
      splitOnWs, List.filter]
    decide
  · rw [getFinalTranscript, if_neg h]
    norm_num [List.filter]
    decide
  · rw [hdur]
    norm_num

/-- C3 amended: the assembled duration is the maximum segment timestamp
minus the minimum segment timestamp (segments carry one timestamp each);
on the two-segment example the assembler yields full_text hello world,
word_count 2, confidence_average 7/10 and duration 2. -/
theorem assembler_duration_amended :
    (∀ (rs : List TranscriptionResult) (ollama : Option (String → PostOutcome)),
        rs ≠ [] →
        (getFinalTranscript rs ollama).duration = maxTimestamp rs - minTimestamp rs) ∧
    (getFinalTranscript [{ text := "hello", confidence := 8/10, timestamp := 0 },
        { text := "world", confidence := 6/10, timestamp := 2 }] none).duration = 2 := by
  constructor
  · intro rs ollama h
    exact getFinalTranscript_duration rs ollama h
  · have h : ([{ text := "hello", confidence := 8/10, timestamp := 0 },
        { text := "world", confidence := 6/10, timestamp := 2 }] :
        List TranscriptionResult) ≠ [] := List.cons_ne_nil _ _
    rw [getFinalTranscript, if_neg h]
    norm_num [minTimestamp, maxTimestamp]

theorem assembler_duration_amended_witness :
    (getFinalTranscript [{ text := "a", confidence := 1, timestamp := 5 }] none).duration =
      maxTimestamp [{ text := "a", confidence := 1, timestamp := 5 }] -
        minTimestamp [{ text := "a", confidence := 1, timestamp := 5 }] :=
  assembler_duration_amended.1 _ none (List.cons_ne_nil _ _)

/-- C4 counterexample: when the model invocation raises (here with message
model crashed), transcribe_audio does not fail with any error - it returns
an ordinary ok TranscriptionResult whose text embeds the message and whose
confidence is 0, after exactly one model invocation. -/
theorem transcribe_failure_counterexample :
    transcribeAudio true [1, 2] {} 5 (.error "model crashed") =
      (Except.ok { text := "[Local Whisper Error: model crashed]", confidence := 0,
                   timestamp := 5, speaker_id := none }, 1) := rfl

/-- C4 amended: on any ASR failure the provider swallows the exception and
returns a successful TranscriptionResult carrying the cause inside its
text, with confidence 0, the model having been invoked exactly once (no
retry); no TranscriptionError reaches the caller. -/
theorem transcribe_failure_amended :
    ∀ (audio : Bytes) (cfg : SessionConfig) (now : ℚ) (msg : String),
      audio ≠ [] →
      transcribeAudio true audio cfg now (.error msg) =
        (.ok { text := "[Local Whisper Error: " ++ msg ++ "]", confidence := 0,
               timestamp := now, speaker_id := none }, 1) := by
  intro audio cfg now msg h
  simp [transcribeAudio, h]

theorem transcribe_failure_amended_witness :
    transcribeAudio true [7] {} 3 (.error "boom") =
      (.ok { text := "[Local Whisper Error: " ++ "boom" ++ "]", confidence := 0,
             timestamp := 3, speaker_id := none }, 1) :=
  transcribe_failure_amended [7] {} 3 "boom" (by decide)

/-- C5: when the configured cleanup call fails (timeout, exception or
non-200 status) the final transcript keeps the joined text unchanged with
post_processed false and no error surfaces (getFinalTranscript is total);
when the call returns 200 and the cleaned text differs from the input, the
cleaned text replaces full_text and post_processed is true. -/
theorem cleanup_failure_swallowed :
    ∀ (rs : List TranscriptionResult) (f : String → PostOutcome),
      (isPostFailure (f (joinedText rs)) = true →
        (getFinalTranscript rs (some f)).full_text = joinedText rs ∧
        (getFinalTranscript rs (some f)).post_processed = false) ∧
      (∀ response : Option String,
        f (joinedText rs) = PostOutcome.ok200 response →
        joinedText rs ≠ "" →
        postProcessTranscript (joinedText rs) (PostOutcome.ok200 response) ≠ joinedText rs →
        (getFinalTranscript rs (some f)).full_text =
          postProcessTranscript (joinedText rs) (PostOutcome.ok200 response) ∧
        (getFinalTranscript rs (some f)).post_processed = true) := by
  intro rs f
  by_cases hnil : rs = []
  · subst hnil
    constructor
    · intro _
      exact ⟨rfl, rfl⟩
    · intro response _ ht _
      exact absurd rfl ht
  · constructor
    · intro hfail
      rw [getFinalTranscript_full_text rs (some f) hnil,
        getFinalTranscript_post_processed rs (some f) hnil,
        ollamaPostStep_failure f (joinedText rs) hfail]
      exact ⟨rfl, rfl⟩
    · intro response hf ht hne
      rw [getFinalTranscript_full_text rs (some f) hnil,
        getFinalTranscript_post_processed rs (some f) hnil,
        ollamaPostStep_ok200 f (joinedText rs) response hf ht hne]
      exact ⟨rfl, rfl⟩

theorem cleanup_failure_swallowed_witness :
    ((getFinalTranscript [{ text := "hi", confidence := 1, timestamp := 0 }]
        (some (fun _ => PostOutcome.exc "timeout"))).full_text =
      joinedText [{ text := "hi", confidence := 1, timestamp := 0 }] ∧
     (getFinalTranscript [{ text := "hi", confidence := 1, timestamp := 0 }]
        (some (fun _ => PostOutcome.exc "timeout"))).post_processed = false) ∧
    ((getFinalTranscript [{ text := "hi", confidence := 1, timestamp := 0 }]
        (some (fun _ => PostOutcome.ok200 (some "hello there")))).full_text =
      postProcessTranscript
        (joinedText [{ text := "hi", confidence := 1, timestamp := 0 }])
        (PostOutcome.ok200 (some "hello there")) ∧
     (getFinalTranscript [{ text := "hi", confidence := 1, timestamp := 0 }]
        (some (fun _ => PostOutcome.ok200 (some "hello there")))).post_processed = true) :=
  ⟨(cleanup_failure_swallowed _ _).1 rfl,
   (cleanup_failure_swallowed _ _).2 (some "hello there") rfl (by decide) (by decide)⟩

/-- C8: every operation given a session id absent from the store fails with
the not-found ValueError leaving the state unchanged, and the call_tool
boundary turns that into an error-text reply instead of letting anything
escape (callTool is a total function). -/
theorem unknown_session_structured_error :
    ∀ (now : ℚ) (id audio : String) (meta : Option Meta) (br : Bridge)
      (svc : ServiceState) (asr : Except String WhisperOut)
      (ollama : Option (String → PostOutcome)),
      mget br.active_sessions id = none →
      receiveAudioChunk now id audio meta br =
        (.error (.valueError ("Session " ++ id ++ " not found")), br) ∧
      stopClientRecording now id br =
        (.error (.valueError ("Session " ++ id ++ " not found")), br) ∧
      getClientSessionStatus now id br =
        .error (.valueError ("Session " ++ id ++ " not found")) ∧
      callTool now asr ollama (.sendAudioChunk id audio meta) br svc =
        (.errorText ("Error: " ++ ("Session " ++ id ++ " not found")), br, svc) ∧
      callTool now asr ollama (.stopClientRec id) br svc =
        (.errorText ("Error: " ++ ("Session " ++ id ++ " not found")), br, svc) ∧
      callTool now asr ollama (.getClientStatus id) br svc =
        (.errorText ("Error: " ++ ("Session " ++ id ++ " not found")), br, svc) := by
  intro now id audio meta br svc asr ollama hnone
  have h1 : receiveAudioChunk now id audio meta br =
      (.error (.valueError ("Session " ++ id ++ " not found")), br) := by
    simp [receiveAudioChunk, hnone]
  have h2 : stopClientRecording now id br =
      (.error (.valueError ("Session " ++ id ++ " not found")), br) := by
    simp [stopClientRecording, hnone]
  have h3 : getClientSessionStatus now id br =
      .error (.valueError ("Session " ++ id ++ " not found")) := by
    simp [getClientSessionStatus, hnone]
  refine ⟨h1, h2, h3, ?_, ?_, ?_⟩
  · simp [callTool, h1, pyErrorMessage]
  · simp [callTool, serverStopClientRecording, h2, pyErrorMessage]
  · simp [callTool, h3, pyErrorMessage]

theorem unknown_session_structured_error_witness :
    callTool 0 (.error "e") none (.sendAudioChunk "sess" "AAAA" none)
        { active_sessions := [], audio_buffers := [] } [] =
      (.errorText ("Error: " ++ ("Session " ++ "sess" ++ " not found")),
       { active_sessions := [], audio_buffers := [] }, ([] : ServiceState)) :=
  (unknown_session_structured_error 0 "sess" "AAAA" none
    { active_sessions := [], audio_buffers := [] } [] (.error "e") none rfl).2.2.2.1

/-- C9: a chunk whose payload is not valid base64 is rejected on an active
session with the invalid-encoding ValueError, its message carrying the
binascii detail, surfaced by the tool boundary as an error-text reply,
and the bridge state - buffers and chunk counts - is returned unchanged. -/
theorem invalid_base64_structured_error :
    ∀ (now : ℚ) (id audio : String) (meta : Option Meta) (br : Bridge)
      (session : ClientSession) (svc : ServiceState)
      (asr : Except String WhisperOut) (ollama : Option (String → PostOutcome))
      (msg : String),
      mget br.active_sessions id = some session →
      b64decodeE audio = .error msg →
      receiveAudioChunk now id audio meta br =
        (.error (.valueError ("Invalid base64 audio data: " ++ msg)), br) ∧
      callTool now asr ollama (.sendAudioChunk id audio meta) br svc =
        (.errorText ("Error: " ++ ("Invalid base64 audio data: " ++ msg)), br, svc) := by
  intro now id audio meta br session svc asr ollama msg hs hbad
  have h1 : receiveAudioChunk now id audio meta br =
      (.error (.valueError ("Invalid base64 audio data: " ++ msg)), br) := by
    simp [receiveAudioChunk, hs, hbad]
  exact ⟨h1, by simp [callTool, h1, pyErrorMessage]⟩

theorem invalid_base64_structured_error_witness :
    receiveAudioChunk 1 "s" "A" none
        (startClientRecording 0 "s" {}
          { active_sessions := [], audio_buffers := [] }).2 =
      (.error (.valueError ("Invalid base64 audio data: " ++
        "Invalid base64-encoded string: number of data characters (1) cannot be 1 more than a multiple of 4")),
       (startClientRecording 0 "s" {}
         { active_sessions := [], audio_buffers := [] }).2) :=
  (invalid_base64_structured_error 1 "s" "A" none
    (startClientRecording 0 "s" {} { active_sessions := [], audio_buffers := [] }).2
    { config := {}, status := "waiting_for_audio", start_time := 0,
      chunk_count := 0, total_audio_duration := 0 } [] (.error "e") none
    "Invalid base64-encoded string: number of data characters (1) cannot be 1 more than a multiple of 4"
    rfl rfl).1

/-- C10: after a successful stop the session entry stays in
active_sessions with status completed while the buffer entry is deleted;
a second stop for the same id therefore raises KeyError at the buffer
deletion (neither a completed result nor the unknown-session ValueError),
and only cleanup_session removes the id from both maps. -/
theorem stop_not_idempotent_keyerror :
    ∀ (now now2 : ℚ) (id : String) (br : Bridge) (session : ClientSession)
      (buf : List ChunkInfo),
      mget br.active_sessions id = some session →
      mget br.audio_buffers id = some buf →
      (∃ r, (stopClientRecording now id br).1 = .ok r ∧ r.status = "completed") ∧
      (∃ s', mget (stopClientRecording now id br).2.active_sessions id = some s' ∧
        s'.status = "completed") ∧
      mget (stopClientRecording now id br).2.audio_buffers id = none ∧
      (stopClientRecording now2 id (stopClientRecording now id br).2).1 =
        .error (.keyError id) ∧
      mget (cleanupSession id (stopClientRecording now id br).2).active_sessions id
        = none ∧
      mget (cleanupSession id (stopClientRecording now id br).2).audio_buffers id
        = none := by
  intro now now2 id br session buf hs hb
  have hstop : stopClientRecording now id br =
      (Except.ok
        { session_id := id, status := "completed",
          total_chunks := session.chunk_count,
          total_duration_seconds := session.total_audio_duration,
          total_audio_bytes := ((buf.map (fun c => c.data)).flatten).length,
          audio_data := (buf.map (fun c => c.data)).flatten,
          session_duration := now - session.start_time },
       { active_sessions :=
           mset br.active_sessions id
             { session with
                 status := "completed"
                 end_time := some now
                 final_audio_size := some ((buf.map (fun c => c.data)).flatten).length },
         audio_buffers := mdel br.audio_buffers id }) := by
    simp [stopClientRecording, hs, hb]
  refine ⟨⟨_, by rw [hstop], rfl⟩, ⟨_, by rw [hstop]; exact mget_mset_self _ _ _, rfl⟩,
    by rw [hstop]; exact mget_mdel_self _ _, ?_, ?_, ?_⟩
  · rw [hstop]
    simp [stopClientRecording, mget_mset_self, mget_mdel_self]
  · rw [hstop]
    simp [cleanupSession, mget_mdel_self]
  · rw [hstop]
    simp [cleanupSession, mget_mdel_self]

theorem stop_not_idempotent_keyerror_witness :
    (stopClientRecording 2 "s"
        (stopClientRecording 1 "s"
          (startClientRecording 0 "s" {}
            { active_sessions := [], audio_buffers := [] }).2).2).1 =
      .error (.keyError "s") :=
  (stop_not_idempotent_keyerror 1 2 "s"
    (startClientRecording 0 "s" {} { active_sessions := [], audio_buffers := [] }).2
    { config := {}, status := "waiting_for_audio", start_time := 0,
      chunk_count := 0, total_audio_duration := 0 } [] rfl rfl).2.2.2.1

theorem startRecordingSession_state (now : ℚ) (id : String)
    (mic spk : Option String) (settings : HostSettings) (st : HostState) :
    (startRecordingSession now id mic spk settings st).2 = st ∨
    (id ∉ st.active_streams ∧ ∃ m p,
      (startRecordingSession now id mic spk settings st).2 =
        { active_sessions := mset st.active_sessions id
            { config := { session_id := id, microphone_device := m,
                          speaker_device := p, sample_rate := settings.sample_rate,
                          channels := settings.channels,
                          chunk_duration := settings.chunk_duration },
              status := "recording", start_time := now },
          active_streams := id :: st.active_streams }) := by
  unfold startRecordingSession
  cases mic with
  | none => left; rfl
  | some m =>
    by_cases hm : m = ""
    · left; simp [hm]
    · cases spk with
      | none => left; simp [hm]
      | some p =>
        by_cases hp : p = ""
        · left; simp [hm, hp]
        · by_cases hmem : id ∈ st.active_streams
          · left; simp [hm, hp, hmem]
          · right
            exact ⟨hmem, m, p, by simp [hm, hp, hmem]⟩

theorem stopRecordingSession_state (now : ℚ) (id : String)
    (transcripts : List TranscriptionResult)
    (ollama : Option (String → PostOutcome)) (st : HostState) :
    (stopRecordingSession now id transcripts ollama st).2 = st ∨
    ∃ session, mget st.active_sessions id = some session ∧
      (stopRecordingSession now id transcripts ollama st).2 =
        { active_sessions := mset st.active_sessions id
            { session with
                status := "completed"
                final_transcript := some (getFinalTranscript transcripts ollama)
                end_time := some now },
          active_streams := st.active_streams.filter (fun s => s != id) } := by
  unfold stopRecordingSession
  cases hs : mget st.active_sessions id with
  | none => left; rfl
  | some session =>
    right
    exact ⟨session, rfl, by simp⟩

theorem hostInvariant_of_reachable : ∀ st : HostState, HostReachable st → hostInvariant st := by
  intro st h
  induction h with
  | init =>
    intro id s hs _
    simp [mget] at hs
  | @step op st hprev ih =>
    cases op with
    | start now id mic spk settings =>
      intro id' s' hs' hrec
      simp only [hostStep] at hs' ⊢
      rcases startRecordingSession_state now id mic spk settings st with heq | ⟨hmem, m, p, heq⟩
      · rw [heq] at hs' ⊢
        exact ih id' s' hs' hrec
      · rw [heq] at hs' ⊢
        by_cases hid : id' = id
        · subst hid
          exact List.mem_cons_self _ _
        · rw [mget_mset_ne _ _ _ _ hid] at hs'
          exact List.mem_cons_of_mem _ (ih id' s' hs' hrec)
    | stop now id transcripts ollama =>
      intro id' s' hs' hrec
      simp only [hostStep] at hs' ⊢
      rcases stopRecordingSession_state now id transcripts ollama st with heq | ⟨session, hsess, heq⟩
      · rw [heq] at hs' ⊢
        exact ih id' s' hs' hrec
      · rw [heq] at hs' ⊢
        by_cases hid : id' = id
        · subst hid
          rw [mget_mset_self] at hs'
          injection hs' with hv
          rw [← hv] at hrec
          simp at hrec
        · rw [mget_mset_ne _ _ _ _ hid] at hs'
          refine List.mem_filter.mpr ⟨ih id' s' hs' hrec, ?_⟩
          simp [hid]

/-- C2: starting a session whose id is already active fails with the
already-active ValueError and leaves the store untouched, on both paths:
the client bridge rejects any id present in its session map, and on the
host path, in every reachable server state, an id whose session is
recording has a live capture stream, so start_capture raises before the
session entry could be overwritten. -/
theorem duplicate_session_id_fails :
    (∀ (now : ℚ) (id : String) (config : SessionConfig) (br : Bridge),
      (mget br.active_sessions id).isSome = true →
      startClientRecording now id config br =
        (.error (.valueError ("Session " ++ id ++ " is already active")), br)) ∧
    (∀ st : HostState, HostReachable st →
      ∀ (id : String) (s : HostSession),
        mget st.active_sessions id = some s → s.status = "recording" →
        ∀ (now : ℚ) (mic spk : String) (settings : HostSettings),
          mic ≠ "" → spk ≠ "" →
          startRecordingSession now id (some mic) (some spk) settings st =
            (.error (.valueError ("Session " ++ id ++ " is already active")), st)) := by
  constructor
  · intro now id config br h
    simp [startClientRecording, h]
  · intro st hreach id s hs hrec now mic spk settings hm hp
    have hmem : id ∈ st.active_streams :=
      hostInvariant_of_reachable st hreach id s hs hrec
    simp [startRecordingSession, hm, hp, hmem]

theorem duplicate_session_id_fails_witness :
    startClientRecording 1 "s" {}
        (startClientRecording 0 "s" {}
          { active_sessions := [], audio_buffers := [] }).2 =
      (.error (.valueError ("Session " ++ "s" ++ " is already active")),
       (startClientRecording 0 "s" {}
         { active_sessions := [], audio_buffers := [] }).2) ∧
    startRecordingSession 1 "h" (some "mic") (some "spk") {}
        (hostStep { active_sessions := [], active_streams := [] }
          (HostOp.start 0 "h" (some "mic") (some "spk") {})) =
      (.error (.valueError ("Session " ++ "h" ++ " is already active")),
       hostStep { active_sessions := [], active_streams := [] }
         (HostOp.start 0 "h" (some "mic") (some "spk") {})) :=
  ⟨duplicate_session_id_fails.1 1 "s" {} _ rfl,
   duplicate_session_id_fails.2 _
     (HostReachable.step (HostOp.start 0 "h" (some "mic") (some "spk") {})
       HostReachable.init)
     "h"
     { config := { session_id := "h", microphone_device := "mic",
                   speaker_device := "spk", sample_rate := 16000,
                   channels := 1, chunk_duration := 30 },
       status := "recording", start_time := 0 }
     rfl rfl 1 "mic" "spk" {} (by decide) (by decide)⟩
